import Mathlib

/-!
# Verification of the claims-processing handlers

A shallow embedding of the serverless handlers of this repository
(`src/lambda/claims_actions.py`, `src/lambda/send_notifications.py`,
`src/lambda/image_analysis.py`, `src/lambda/get_claim.py`) together with
proofs about the claim version-merge engine, the versioned claim store,
the response envelopes and the property-coercion adapters.

Conventions of the embedding:
* Python values flowing through the handlers are modelled by `PyScalar`
  (strings, exact decimals as `ℚ`, booleans, lists of strings, `None`)
  and, at the top level of a property bag, `PyVal` (a scalar or a
  string-keyed mapping).  The handlers only ever build and inspect these
  shapes: `parse_agent_object` produces strings, booleans, `None` and
  lists of strings; the document lists are lists of strings.
* Python dictionaries are association lists with distinct keys
  (`Dict`); `dget`/`dset` are `dict.get` / `dict.__setitem__`.
* Python truthiness (`if v:` / `if not d.get(k):`) is `PyScalar.truthy`.
* `Decimal(str(v))` keeps the exact decimal value, so `claim_details`
  numbers are already exact rationals and `convert_to_decimal`
  (claims_actions.py lines 236-247) is the identity on the model.
-/

/-- A Python leaf value as handled by the lambda handlers. -/
inductive PyScalar where
  | str (s : String)
  | num (q : ℚ)
  | bool (b : Bool)
  | list (xs : List String)
  | none
deriving DecidableEq, Repr

/-- Python truthiness of a leaf value: `""`, `0`, `False`, `[]` and
`None` are falsy, everything else is truthy. -/
def PyScalar.truthy : PyScalar → Bool
  | .str s => !s.isEmpty
  | .num q => decide (q ≠ 0)
  | .bool b => b
  | .list xs => !xs.isEmpty
  | .none => false

/-- A Python dictionary with string keys and leaf values, modelled as an
association list (the handlers' dicts have distinct keys). -/
abbrev Dict := List (String × PyScalar)

/-- `d.get(k)`: the first binding of `k`, if any. -/
def dget : Dict → String → Option PyScalar
  | [], _ => Option.none
  | (k', v') :: rest, k => if k' = k then some v' else dget rest k

/-- `d.get(k, dflt)`. -/
def dgetD (d : Dict) (k : String) (dflt : PyScalar) : PyScalar :=
  (dget d k).getD dflt

/-- `d[k] = v`: replace the binding of `k` in place, or append it. -/
def dset : Dict → String → PyScalar → Dict
  | [], k, v => [(k, v)]
  | (k', v') :: rest, k, v =>
    if k' = k then (k, v) :: rest else (k', v') :: dset rest k v

/-- A value at the top of a property bag: `extract_properties` can
produce a parsed object (a dict) as well as a leaf value. -/
inductive PyVal where
  | scalar (v : PyScalar)
  | dict (d : Dict)
deriving DecidableEq, Repr

/-- Python truthiness of a top-level value. -/
def PyVal.truthy : PyVal → Bool
  | .scalar v => v.truthy
  | .dict d => !d.isEmpty

/-- View a top-level value as a dict; the handlers apply this where the
source iterates `.items()` (a non-dict there would raise in Python and
is outside the shapes the agent contract produces). -/
def PyVal.toDict : PyVal → Dict
  | .dict d => d
  | .scalar _ => []

/-- View a leaf value as a list of strings; applied where the source
concatenates document lists. -/
def PyScalar.toStrList : PyScalar → List String
  | .list xs => xs
  | _ => []

/-! ## The claim version-merge engine (claims_actions.py, handler) -/

/-- The static (write-once-if-empty) `claim_details` fields,
claims_actions.py lines 221-233. -/
def staticFields : List String :=
  ["policy_number", "customer_id", "coverage_amount", "deductible",
   "active_policy", "incident_date", "incident_location",
   "estimated_cost_from_image", "total_repair_cost", "claim_type"]

/-- One iteration of the `claim_details` merge loop,
claims_actions.py lines 252-260: a truthy incoming value overwrites a
static field only when the accumulated value is absent or falsy, and
always overwrites a dynamic field; a falsy incoming value is ignored. -/
def detailsStep (acc : Dict) (kv : String × PyScalar) : Dict :=
  if kv.2.truthy then
    if kv.1 ∈ staticFields then
      if (dgetD acc kv.1 PyScalar.none).truthy then acc
      else dset acc kv.1 kv.2
    else dset acc kv.1 kv.2
  else acc

/-- `merged_details`: fold the merge loop over the incoming items,
starting from a copy of the existing details (lines 249-260). -/
def mergeDetails (existing new : Dict) : Dict :=
  new.foldl detailsStep existing

/-- One iteration of the `vehicle_info` merge loop, lines 267-270:
every vehicle field is static. -/
def vehicleStep (acc : Dict) (kv : String × PyScalar) : Dict :=
  if kv.2.truthy && !(dgetD acc kv.1 PyScalar.none).truthy then
    dset acc kv.1 kv.2
  else acc

/-- `merged_vehicle` (lines 262-270). -/
def mergeVehicle (existing new : Dict) : Dict :=
  new.foldl vehicleStep existing

/-- `merged_docs = list(set(existing_docs + new_docs))` (line 214);
`dedup` is one representative of the arbitrary set order. -/
def mergeDocs (a b : List String) : List String :=
  (a ++ b).dedup

/-- The incoming update as the handler reads it out of the extracted
property bag `data` (claims_actions.py lines 173, 213, 218, 264, 277,
285, 287, 297-300): the handler accesses exactly the keys `claim_id`,
`claim_details`, `vehicle_info`, `documents` and `version_summary`,
each sub-dict defaulting to `{}` when absent. -/
structure UpdateData where
  claim_id : Option PyVal
  claim_details : Dict
  vehicle_info : Dict
  documents : Dict
  version_summary : Dict
deriving DecidableEq, Repr

/-- One stored claim-version row (the `item` dict of lines 273-301).
`is_latest` is the string `"true"`/`"false"` exactly as stored. -/
structure Item where
  claim_id : PyVal
  version : String
  is_latest : String
  status : PyScalar
  created_at : String
  claim_details : Dict
  vehicle_info : Dict
  documents : Dict
  version_summary : Dict
deriving DecidableEq, Repr

/-- The merged item built when an existing latest version was found
(claims_actions.py lines 210-288). -/
def mergedItem (cid : PyVal) (ts : String) (ex : Item) (data : UpdateData) : Item :=
  { claim_id := cid
    version := ts
    is_latest := "true"
    status := dgetD data.version_summary "claim_status" (PyScalar.str "PENDING")
    created_at := ts
    claim_details := mergeDetails ex.claim_details data.claim_details
    vehicle_info := mergeVehicle ex.vehicle_info data.vehicle_info
    documents :=
      [("current_uploaded_documents",
        PyScalar.list (mergeDocs
          (dgetD ex.documents "current_uploaded_documents" (PyScalar.list [])).toStrList
          (dgetD data.documents "current_uploaded_documents" (PyScalar.list [])).toStrList)),
       ("required_documents",
        dgetD data.documents "required_documents" (PyScalar.list []))]
    version_summary := data.version_summary }

/-- The item built for a claim with no existing version
(claims_actions.py lines 289-301): the incoming values verbatim. -/
def newItem (cid : PyVal) (ts : String) (data : UpdateData) : Item :=
  { claim_id := cid
    version := ts
    is_latest := "true"
    status := dgetD data.version_summary "claim_status" (PyScalar.str "PENDING")
    created_at := ts
    claim_details := data.claim_details
    vehicle_info := data.vehicle_info
    documents := data.documents
    version_summary := data.version_summary }

/-! ## The versioned claim store (one claim_id) -/

/-- The stored rows of one claim, in insertion order. -/
abbrev Store := List Item

/-- The `is_latest = "true"` row predicate of the DynamoDB filter
expression (claims_actions.py lines 181-185). -/
def isLatestRow (it : Item) : Bool := it.is_latest = "true"

/-- The latest-version lookup (claims_actions.py lines 179-187): the
query filters on `is_latest = "true"` and the handler takes
`Items[0]`. -/
def getLatest (st : Store) : Option Item :=
  st.find? isLatestRow

/-- `update_item ... SET is_latest = "false"` on the row keyed by
`version` (lines 192-201). -/
def demote (st : Store) (ver : String) : Store :=
  st.map (fun it => if it.version = ver then { it with is_latest := "false" } else it)

/-- `it` is a row keyed by a version other than `ver`. -/
def keyNe (ver : String) (it : Item) : Bool := it.version != ver

/-- `put_item` (line 305): replaces the row with the same key; the row
order in the model is immaterial to the handler's reads. -/
def put (st : Store) (item : Item) : Store :=
  st.filter (keyNe item.version) ++ [item]

/-- The write given the outcome of the existing-claim lookup: demote
the old latest (if any) and persist the merged item, else persist the
new-claim item (lines 188-201, 210-305). -/
def writeGivenExisting (cid : PyVal) (ts : String) (data : UpdateData) :
    Option Item → Store → Store
  | some ex, st => put (demote st ex.version) (mergedItem cid ts ex data)
  | Option.none, st => put st (newItem cid ts data)

/-- One full write operation against the store. -/
def writeClaim (cid : PyVal) (ts : String) (data : UpdateData) (st : Store) : Store :=
  writeGivenExisting cid ts data (getLatest st) st

/-- The item a write persists, as a function of the pre-state. -/
def writtenItem (cid : PyVal) (ts : String) (data : UpdateData) (st : Store) : Item :=
  match getLatest st with
  | some ex => mergedItem cid ts ex data
  | Option.none => newItem cid ts data

/-- A sequence of write operations `(timestamp, data)` applied to the
empty store. -/
def applyWrites (cid : PyVal) (ops : List (String × UpdateData)) : Store :=
  ops.foldl (fun st op => writeClaim cid op.1 op.2 st) []

/-! ## The existing-claim lookup and its error handling -/

/-- Outcome of the DynamoDB query of claims_actions.py lines 179-187:
the latest version is found, no row matches, or the backend fails with
an ambiguous error (throttling, outage, ...). -/
inductive LookupOutcome where
  | found (it : Item)
  | notFound
  | backendError (msg : String)
deriving DecidableEq, Repr

/-- What the handler binds `existing_claim` to: the `except` clause of
claims_actions.py lines 202-204 catches every lookup exception and sets
`existing_claim = None`, exactly as in the not-found case. -/
def existingClaimOf : LookupOutcome → Option Item
  | .found it => some it
  | .notFound => Option.none
  | .backendError _ => Option.none

/-- The write operation with the lookup outcome made explicit: the
handler proceeds with `existing_claim` as computed above and always
persists an item (lines 206-305); no outcome makes it abort. -/
def writeClaimWithLookup (cid : PyVal) (ts : String) (data : UpdateData)
    (outcome : LookupOutcome) (st : Store) : Store :=
  writeGivenExisting cid ts data (existingClaimOf outcome) st

/-- A stored latest version of claim CLM-1001 with populated static
fields. -/
def exampleExisting : Item :=
  { claim_id := PyVal.scalar (PyScalar.str "CLM-1001")
    version := "2025-05-18T10:00:00"
    is_latest := "true"
    status := PyScalar.str "PENDING"
    created_at := "2025-05-18T10:00:00"
    claim_details := [("policy_number", PyScalar.str "AUTO-5678-9012"),
                      ("coverage_amount", PyScalar.num 50000)]
    vehicle_info := [("make", PyScalar.str "Honda"), ("model", PyScalar.str "CR-V")]
    documents := [("current_uploaded_documents", PyScalar.list ["claim_form.pdf"]),
                  ("required_documents", PyScalar.list ["photos"])]
    version_summary := [("claim_status", PyScalar.str "PENDING")] }

/-- An incoming update for the same claim. -/
def exampleData : UpdateData :=
  { claim_id := some (PyVal.scalar (PyScalar.str "CLM-1001"))
    claim_details := [("policy_number", PyScalar.str "AUTO-9999-0000")]
    vehicle_info := []
    documents := [("current_uploaded_documents", PyScalar.list ["photo1.jpg"])]
    version_summary := [("claim_status", PyScalar.str "APPROVED")] }

/-! ## Python string helpers used by the adapters

`pyTrim` is `str.strip()`, `pyStrip` is `str.strip(chars)`, `splitChar`
is `str.split(sep)` for a one-character separator. -/

/-- Drop the given characters from both ends of a character list. -/
def stripChars (bad : List Char) (cs : List Char) : List Char :=
  ((cs.dropWhile (· ∈ bad)).reverse.dropWhile (· ∈ bad)).reverse

/-- Python `s.strip()`. -/
def pyTrim (s : String) : String :=
  ⟨stripChars [' ', '\t', '\n', '\r'] s.toList⟩

/-- Python `s.strip(chars)`. -/
def pyStrip (s : String) (bad : List Char) : String :=
  ⟨stripChars bad s.toList⟩

/-- Python `s.split(sep)` for a one-character separator. -/
def splitChar (sep : Char) (cs : List Char) : List (List Char) :=
  cs.foldr
    (fun ch acc =>
      match acc with
      | [] => if ch = sep then [[], []] else [[ch]]
      | cur :: rest => if ch = sep then [] :: cur :: rest else (ch :: cur) :: rest)
    [[]]

/-- Python `s.lower()` (on the ASCII range the handlers compare). -/
def pyLower (s : String) : String :=
  ⟨s.toList.map Char.toLower⟩

/-- Python `s.startswith(c)` for a one-character prefix. -/
def strStartsWith (s : String) (c : Char) : Bool :=
  match s.toList with
  | [] => false
  | c' :: _ => c' = c

/-- Python `s.endswith(c)` for a one-character suffix. -/
def strEndsWith (s : String) (c : Char) : Bool :=
  match s.toList.reverse with
  | [] => false
  | c' :: _ => c' = c

/-! ## Numeric coercion (C8)

`Decimal(str(value))` keeps the decimal digits exactly, so its model
returns the parsed rational unchanged; `float(value)` rounds to IEEE-754
binary64, modelled by `float64OfRat`. -/

/-- Numeric value of a digit character. -/
def digitVal (c : Char) : ℕ := c.toNat - '0'.toNat

/-- Value of a digit string, most significant digit first. -/
def digitsVal (ds : List Char) : ℕ :=
  ds.foldl (fun n c => 10 * n + digitVal c) 0

/-- Parse the decimal literals accepted by both Python `Decimal` and
`float`: an optionally signed fixed-point literal surrounded by
whitespace.  The result is the pair (scaled integer value, number of
fractional digits), i.e. the literal denotes `p.1 / 10 ^ p.2` — the
digit string read exactly, with no rounding.  (Exponent forms,
underscores and inf/nan, which the claims never exercise, are outside
the modelled subset and fail the parse.) -/
def parseDecimal (s : String) : Option (ℤ × ℕ) :=
  let cs1 := stripChars [' ', '\t', '\n', '\r'] s.toList
  let signed : ℤ × List Char :=
    match cs1 with
    | '+' :: rest => (1, rest)
    | '-' :: rest => (-1, rest)
    | rest => (1, rest)
  let intPart := signed.2.takeWhile (fun c => c ≠ '.')
  let dotRest := signed.2.dropWhile (fun c => c ≠ '.')
  match dotRest with
  | [] =>
    if intPart ≠ [] ∧ intPart.all Char.isDigit then
      some (signed.1 * digitsVal intPart, 0)
    else Option.none
  | _ :: frac =>
    if (intPart ≠ [] ∨ frac ≠ []) ∧ intPart.all Char.isDigit ∧
        frac.all Char.isDigit then
      some (signed.1 * (digitsVal intPart * 10 ^ frac.length + digitsVal frac),
        frac.length)
    else Option.none

/-- The exact rational value a parsed decimal literal denotes. -/
def decValue (p : ℤ × ℕ) : ℚ :=
  (p.1 : ℚ) / 10 ^ p.2

/-- Multiply by an integer power of two. -/
def scaleByPow2 (q : ℚ) (n : ℤ) : ℚ :=
  if 0 ≤ n then q * 2 ^ n.toNat else q / 2 ^ (-n).toNat

/-- The IEEE-754 binary64 value of a rational in the normal range:
round the 53-bit significand at position `Int.log 2 |q| - 52`.
(`round` is round-half-up, which agrees with the hardware's
round-half-even everywhere except at exact ties, none of which the
claims exercise; overflow and subnormals are likewise out of range
here.) -/
def float64OfRat (q : ℚ) : ℚ :=
  if q = 0 then 0
  else
    scaleByPow2 ((round (scaleByPow2 q (52 - Int.log 2 |q|)) : ℤ) : ℚ)
      (Int.log 2 |q| - 52)

/-- The `number` coercion of claims_actions.py lines 146-150 and
get_claim.py lines 33-37: `Decimal(str(value))`, with any parse failure
yielding `Decimal('0')`.  `Decimal` stores the decimal value exactly,
so the model is the parsed value itself. -/
def decimalNumberValue (value : String) : ℚ :=
  match parseDecimal value with
  | some p => decValue p
  | Option.none => 0

/-- The `number` coercion of image_analysis.py lines 36-40:
`float(value)`, with any parse failure yielding `0`: the parsed value
rounded to binary64. -/
def floatNumberValue (value : String) : ℚ :=
  match parseDecimal value with
  | some p => float64OfRat (decValue p)
  | Option.none => 0

/-! ## The property-coercion adapters (C8, C9)

`jsonP` stands for Python's `json.loads` and `agentP` for the
hand-rolled `key=value` dialect parser of claims_actions.py lines
12-107; both are uninterpreted parameters here — no claim depends on
their output, only on which branch of the type dispatch runs. -/

/-- One entry of the agent's property bag:
`{name, type, value: string}`. -/
structure PropEntry where
  name : String
  typ : String
  value : String
deriving DecidableEq, Repr

/-- The `array` fallback of claims_actions.py lines 127-145: try JSON,
else strip brackets, split on commas and strip quotes, else `[]`. -/
def claimsActionsArray (jsonP : String → Option PyVal) (value : String) : PyVal :=
  match jsonP (pyTrim value) with
  | some v => v
  | Option.none =>
    if strStartsWith value '[' && strEndsWith value ']' then
      PyVal.scalar (PyScalar.list
        (((splitChar ',' (pyStrip value ['[', ']']).toList).map
            (fun item => (⟨stripChars ['"', Char.ofNat 39]
              (stripChars [' ', '\t', '\n', '\r'] item)⟩ : String))).filter
          (fun item => item ≠ "")))
    else PyVal.scalar (PyScalar.list [])

/-- The typed coercion of claims_actions.py `extract_properties`
(lines 109-157).  Note the dispatch has NO `boolean` branch: any type
other than object/array/number falls to the string case of lines
151-152. -/
def claimsActionsCoerce (jsonP : String → Option PyVal) (agentP : String → Dict)
    (typ value : String) : PyVal :=
  if typ = "object" then
    match jsonP (pyTrim value) with
    | some v => v
    | Option.none => PyVal.dict (agentP value)
  else if typ = "array" then claimsActionsArray jsonP value
  else if typ = "number" then PyVal.scalar (PyScalar.num (decimalNumberValue value))
  else PyVal.scalar (PyScalar.str value)

/-- The typed coercion of image_analysis.py `extract_properties`
(lines 7-49), including its `boolean` branch (lines 41-42). -/
def imageAnalysisCoerce (jsonP : String → Option PyVal) (typ value : String) : PyVal :=
  if typ = "array" then
    match jsonP (pyTrim value) with
    | some v => v
    | Option.none => PyVal.scalar (PyScalar.list [value])
  else if typ = "object" then
    match jsonP (pyTrim value) with
    | some v => v
    | Option.none => PyVal.scalar (PyScalar.str value)
  else if typ = "number" then PyVal.scalar (PyScalar.num (floatNumberValue value))
  else if typ = "boolean" then
    PyVal.scalar (PyScalar.bool (pyLower value == "true"))
  else PyVal.scalar (PyScalar.str value)

/-- The typed coercion of get_claim.py `extract_properties`
(lines 11-44): like claims_actions without the agent-dialect fallback,
and likewise with NO `boolean` branch. -/
def getClaimCoerce (jsonP : String → Option PyVal) (typ value : String) : PyVal :=
  if typ = "object" then (jsonP (pyTrim value)).getD (PyVal.dict [])
  else if typ = "array" then
    (jsonP (pyTrim value)).getD (PyVal.scalar (PyScalar.list []))
  else if typ = "number" then PyVal.scalar (PyScalar.num (decimalNumberValue value))
  else PyVal.scalar (PyScalar.str value)

/-- The extractor of send_notifications.py lines 18-28: every property
value is taken verbatim as a string, with no type dispatch at all. -/
def sendNotificationsExtract (props : List PropEntry) : Dict :=
  props.foldl (fun d p => dset d p.name (PyScalar.str p.value)) []

/-! ## Response envelopes (C7)

An `Option` field models whether the corresponding key is present in
the returned Python dict. -/

/-- The action-group invocation event (see §6 of the agent contract):
`actionGroup`, `apiPath`, `httpMethod`, the session attributes and the
property bag. -/
structure AgentEvent where
  actionGroup : String
  apiPath : String
  httpMethod : String
  sessionAttributes : Dict
  promptSessionAttributes : Dict
  properties : List PropEntry
deriving DecidableEq, Repr

/-- The serialized `body` of a response, one constructor per
`json.dumps` call site, carrying exactly the data the source
serializes there. -/
inductive ResponseBody where
  /-- claims_actions.py lines 308-323: message, claim_id, version and
  the stored item's claim_data. -/
  | claimSuccess (cid : PyVal) (version : String) (item : Item)
  /-- claims_actions.py line 354 / get_claim.py line 158:
  `{'error': str(e)}`. -/
  | claimError (msg : String)
  /-- send_notifications.py lines 66-69. -/
  | notifySuccess (messageId : String)
  /-- send_notifications.py lines 106-108. -/
  | notifyError (msg : String)
deriving DecidableEq, Repr

/-- The inner `response` dict of the final envelope. -/
structure ActionResponse where
  actionGroup : Option String
  apiPath : Option String
  httpMethod : Option String
  httpStatusCode : ℕ
  body : ResponseBody
deriving DecidableEq, Repr

/-- The full envelope returned to the agent runtime. -/
structure FinalResponse where
  messageVersion : String
  response : ActionResponse
  sessionAttributes : Option Dict
  promptSessionAttributes : Option Dict
deriving DecidableEq, Repr

/-- The error envelope of claims_actions.py lines 346-361 (identical in
get_claim.py lines 150-165): only `messageVersion`, the status code and
the body — it does NOT echo `actionGroup`/`apiPath`/`httpMethod`, nor
the session attributes. -/
def claimsActionsError (msg : String) : FinalResponse :=
  { messageVersion := "1.0"
    response := { actionGroup := Option.none, apiPath := Option.none,
                  httpMethod := Option.none, httpStatusCode := 500,
                  body := ResponseBody.claimError msg }
    sessionAttributes := Option.none
    promptSessionAttributes := Option.none }

/-- The claims_actions.py handler (lines 159-361) at envelope
granularity.  `data` is the result of `extract_properties` (line 170),
whose per-property coercion is modelled separately above; `ts` is the
`datetime.now().isoformat()` timestamp; `outcome` is the result of the
existing-claim query.  The handler never throws: every handled failure
becomes the error envelope (the missing-claim_id `KeyError` of lines
174-175 included). -/
def claimsActionsRun (ts : String) (outcome : LookupOutcome) (st : Store)
    (ev : AgentEvent) (data : UpdateData) : FinalResponse × Store :=
  match data.claim_id with
  | Option.none => (claimsActionsError "Missing required claim_id field", st)
  | some cid =>
    if cid.truthy then
      let ex := existingClaimOf outcome
      let item := match ex with
        | some e => mergedItem cid ts e data
        | Option.none => newItem cid ts data
      ({ messageVersion := "1.0"
         response := { actionGroup := some ev.actionGroup
                       apiPath := some ev.apiPath
                       httpMethod := some ev.httpMethod
                       httpStatusCode := 200
                       body := ResponseBody.claimSuccess cid ts item }
         sessionAttributes := some ev.sessionAttributes
         promptSessionAttributes := some ev.promptSessionAttributes },
       writeGivenExisting cid ts data ex st)
    else (claimsActionsError "Missing required claim_id field", st)

/-- `data.get(k, dflt)` when the handler expects a string value (the
send_notifications extractor only ever stores strings). -/
def strValD (d : Dict) (k : String) (dflt : String) : String :=
  match dget d k with
  | some (PyScalar.str s) => s
  | some _ => dflt
  | Option.none => dflt

/-- The error envelope of send_notifications.py lines 95-115: unlike
claims_actions, it echoes `actionGroup`/`apiPath`/`httpMethod` and both
session-attribute dicts. -/
def sendNotificationsError (ev : AgentEvent) (cause : String) : FinalResponse :=
  { messageVersion := "1.0"
    response := { actionGroup := some ev.actionGroup
                  apiPath := some ev.apiPath
                  httpMethod := some ev.httpMethod
                  httpStatusCode := 500
                  body := ResponseBody.notifyError
                    ("Error sending notification: " ++ cause) }
    sessionAttributes := some ev.sessionAttributes
    promptSessionAttributes := some ev.promptSessionAttributes }

/-- The send_notifications.py handler (lines 30-115).  `topicArn` is
the TOPIC_ARN environment variable; `publish` is `sns.publish`
(arn, subject, message → message id or error), an uninterpreted
parameter. -/
def sendNotificationsRun (topicArn : Option String)
    (publish : String → String → String → Except String String)
    (ev : AgentEvent) : FinalResponse :=
  let data := sendNotificationsExtract ev.properties
  let subject := strValD data "subject" "Claim Update Notification"
  let message := strValD data "message" "No message provided"
  match topicArn with
  | Option.none => sendNotificationsError ev "Missing TOPIC_ARN environment variable"
  | some arn =>
    match publish arn subject message with
    | Except.error e => sendNotificationsError ev e
    | Except.ok mid =>
      { messageVersion := "1.0"
        response := { actionGroup := some ev.actionGroup
                      apiPath := some ev.apiPath
                      httpMethod := some ev.httpMethod
                      httpStatusCode := 200
                      body := ResponseBody.notifySuccess mid }
        sessionAttributes := some ev.sessionAttributes
        promptSessionAttributes := some ev.promptSessionAttributes }

/-! ## Dictionary lemmas -/

theorem dget_dset_self (d : Dict) (k : String) (v : PyScalar) :
    dget (dset d k v) k = some v := by
  induction d with
  | nil => simp [dset, dget]
  | cons kv rest ih =>
    obtain ⟨k', v'⟩ := kv
    by_cases h : k' = k
    · simp [dset, dget, h]
    · simp [dset, dget, h, ih]

theorem dget_dset_ne (d : Dict) {k' k : String} (v : PyScalar) (h : k' ≠ k) :
    dget (dset d k' v) k = dget d k := by
  induction d with
  | nil => simp [dset, dget, h]
  | cons kv rest ih =>
    obtain ⟨k₀, v₀⟩ := kv
    by_cases h0 : k₀ = k'
    · subst h0; simp [dset, dget, h]
    · simp only [dset, if_neg h0]
      by_cases h1 : k₀ = k <;> simp [dget, h1, ih]

/-! ## Merge-fold lemmas -/

theorem dget_detailsStep_ne (acc : Dict) (kv : String × PyScalar) {k : String}
    (h : kv.1 ≠ k) : dget (detailsStep acc kv) k = dget acc k := by
  unfold detailsStep
  repeat' split
  all_goals first | rfl | exact dget_dset_ne _ _ h

theorem dgetD_detailsStep_ne (acc : Dict) (kv : String × PyScalar) {k : String}
    (h : kv.1 ≠ k) (dflt : PyScalar) :
    dgetD (detailsStep acc kv) k dflt = dgetD acc k dflt := by
  unfold dgetD; rw [dget_detailsStep_ne acc kv h]

theorem foldl_details_preserve (new : Dict) :
    ∀ acc k, (∀ kv ∈ new, kv.1 ≠ k) →
      dget (new.foldl detailsStep acc) k = dget acc k := by
  induction new with
  | nil => intro acc k _; rfl
  | cons kv rest ih =>
    intro acc k h
    simp only [List.foldl_cons]
    rw [ih _ k (fun kv2 hm => h kv2 (List.mem_cons_of_mem _ hm))]
    exact dget_detailsStep_ne acc kv (h kv (List.mem_cons_self _ _))

theorem foldl_details_writeonce (new : Dict) :
    ∀ acc k, k ∈ staticFields → (dgetD acc k PyScalar.none).truthy = true →
      dget (new.foldl detailsStep acc) k = dget acc k := by
  induction new with
  | nil => intro acc k _ _; rfl
  | cons kv rest ih =>
    intro acc k hk htr
    obtain ⟨k', v'⟩ := kv
    simp only [List.foldl_cons]
    by_cases hkk : k' = k
    · subst hkk
      have hstep : detailsStep acc (k', v') = acc := by
        unfold detailsStep
        by_cases hv : v'.truthy = true
        · simp [hv, hk, htr]
        · simp [hv]
      rw [hstep]
      exact ih acc k' hk htr
    · have hd := dget_detailsStep_ne acc (k', v') (k := k) hkk
      have hD := dgetD_detailsStep_ne acc (k', v') (k := k) hkk PyScalar.none
      rw [ih _ k hk (by rw [hD]; exact htr)]
      exact hd

theorem foldl_details_adopt (new : Dict) :
    ∀ acc k v, (new.map Prod.fst).Nodup → (k, v) ∈ new → v.truthy = true →
      (dgetD acc k PyScalar.none).truthy = false →
      dget (new.foldl detailsStep acc) k = some v := by
  induction new with
  | nil => intro acc k v _ hm; cases hm
  | cons kv rest ih =>
    intro acc k v hnd hm hv hf
    rw [List.map_cons, List.nodup_cons] at hnd
    simp only [List.foldl_cons]
    rcases List.mem_cons.mp hm with heq | hmem
    · obtain ⟨k', v'⟩ := kv
      injection heq with h1 h2
      subst h1; subst h2
      have hstep : dget (detailsStep acc (k, v)) k = some v := by
        unfold detailsStep
        by_cases h2 : k ∈ staticFields
        · simp [hv, h2, hf, dget_dset_self]
        · simp [hv, h2, dget_dset_self]
      have hrest : ∀ kv2 ∈ rest, kv2.1 ≠ k := by
        intro kv2 hkv2 hEq
        exact hnd.1 (List.mem_map.mpr ⟨kv2, hkv2, hEq⟩)
      rw [foldl_details_preserve rest _ k hrest]
      exact hstep
    · obtain ⟨k', v'⟩ := kv
      have hk' : k' ≠ k := by
        intro hEq
        exact hnd.1 (hEq ▸ List.mem_map.mpr ⟨(k, v), hmem, rfl⟩)
      have hD := dgetD_detailsStep_ne acc (k', v') (k := k) hk' PyScalar.none
      exact ih _ k v hnd.2 hmem hv (by rw [hD]; exact hf)

theorem foldl_details_skip (new : Dict) :
    ∀ acc k, (∀ v, (k, v) ∈ new → v.truthy = false) →
      dget (new.foldl detailsStep acc) k = dget acc k := by
  induction new with
  | nil => intro acc k _; rfl
  | cons kv rest ih =>
    intro acc k h
    obtain ⟨k', v'⟩ := kv
    simp only [List.foldl_cons]
    by_cases hkk : k' = k
    · subst hkk
      have hv' : v'.truthy = false := h v' (List.mem_cons_self _ _)
      have hstep : detailsStep acc (k', v') = acc := by
        unfold detailsStep; simp [hv']
      rw [hstep]
      exact ih acc k' (fun v hm => h v (List.mem_cons_of_mem _ hm))
    · rw [ih _ k (fun v hm => h v (List.mem_cons_of_mem _ hm))]
      exact dget_detailsStep_ne acc (k', v') hkk

theorem dget_vehicleStep_ne (acc : Dict) (kv : String × PyScalar) {k : String}
    (h : kv.1 ≠ k) : dget (vehicleStep acc kv) k = dget acc k := by
  unfold vehicleStep
  split
  · exact dget_dset_ne _ _ h
  · rfl

theorem dgetD_vehicleStep_ne (acc : Dict) (kv : String × PyScalar) {k : String}
    (h : kv.1 ≠ k) (dflt : PyScalar) :
    dgetD (vehicleStep acc kv) k dflt = dgetD acc k dflt := by
  unfold dgetD; rw [dget_vehicleStep_ne acc kv h]

theorem foldl_vehicle_preserve (new : Dict) :
    ∀ acc k, (∀ kv ∈ new, kv.1 ≠ k) →
      dget (new.foldl vehicleStep acc) k = dget acc k := by
  induction new with
  | nil => intro acc k _; rfl
  | cons kv rest ih =>
    intro acc k h
    simp only [List.foldl_cons]
    rw [ih _ k (fun kv2 hm => h kv2 (List.mem_cons_of_mem _ hm))]
    exact dget_vehicleStep_ne acc kv (h kv (List.mem_cons_self _ _))

theorem foldl_vehicle_writeonce (new : Dict) :
    ∀ acc k, (dgetD acc k PyScalar.none).truthy = true →
      dget (new.foldl vehicleStep acc) k = dget acc k := by
  induction new with
  | nil => intro acc k _; rfl
  | cons kv rest ih =>
    intro acc k htr
    obtain ⟨k', v'⟩ := kv
    simp only [List.foldl_cons]
    by_cases hkk : k' = k
    · subst hkk
      have hstep : vehicleStep acc (k', v') = acc := by
        unfold vehicleStep; simp [htr]
      rw [hstep]
      exact ih acc k' htr
    · have hD := dgetD_vehicleStep_ne acc (k', v') (k := k) hkk PyScalar.none
      rw [ih _ k (by rw [hD]; exact htr)]
      exact dget_vehicleStep_ne acc (k', v') hkk

theorem foldl_vehicle_adopt (new : Dict) :
    ∀ acc k v, (new.map Prod.fst).Nodup → (k, v) ∈ new → v.truthy = true →
      (dgetD acc k PyScalar.none).truthy = false →
      dget (new.foldl vehicleStep acc) k = some v := by
  induction new with
  | nil => intro acc k v _ hm; cases hm
  | cons kv rest ih =>
    intro acc k v hnd hm hv hf
    rw [List.map_cons, List.nodup_cons] at hnd
    simp only [List.foldl_cons]
    rcases List.mem_cons.mp hm with heq | hmem
    · obtain ⟨k', v'⟩ := kv
      injection heq with h1 h2
      subst h1; subst h2
      have hstep : dget (vehicleStep acc (k, v)) k = some v := by
        unfold vehicleStep; simp [hv, hf, dget_dset_self]
      have hrest : ∀ kv2 ∈ rest, kv2.1 ≠ k := by
        intro kv2 hkv2 hEq
        exact hnd.1 (List.mem_map.mpr ⟨kv2, hkv2, hEq⟩)
      rw [foldl_vehicle_preserve rest _ k hrest]
      exact hstep
    · obtain ⟨k', v'⟩ := kv
      have hk' : k' ≠ k := by
        intro hEq
        exact hnd.1 (hEq ▸ List.mem_map.mpr ⟨(k, v), hmem, rfl⟩)
      have hD := dgetD_vehicleStep_ne acc (k', v') (k := k) hk' PyScalar.none
      exact ih _ k v hnd.2 hmem hv (by rw [hD]; exact hf)

theorem foldl_vehicle_skip (new : Dict) :
    ∀ acc k, (∀ v, (k, v) ∈ new → v.truthy = false) →
      dget (new.foldl vehicleStep acc) k = dget acc k := by
  induction new with
  | nil => intro acc k _; rfl
  | cons kv rest ih =>
    intro acc k h
    obtain ⟨k', v'⟩ := kv
    simp only [List.foldl_cons]
    by_cases hkk : k' = k
    · subst hkk
      have hv' : v'.truthy = false := h v' (List.mem_cons_self _ _)
      have hstep : vehicleStep acc (k', v') = acc := by
        unfold vehicleStep; simp [hv']
      rw [hstep]
      exact ih acc k' (fun v hm => h v (List.mem_cons_of_mem _ hm))
    · rw [ih _ k (fun v hm => h v (List.mem_cons_of_mem _ hm))]
      exact dget_vehicleStep_ne acc (k', v') hkk

/-- C1: in a write against an existing latest version, every static
`claim_details` field and every `vehicle_info` field whose existing
value is non-empty keeps its existing value, whatever non-empty value
the incoming update carries; the incoming value is adopted only when
the existing value is empty or absent. -/
theorem static_field_write_once :
    (∀ existing new k, k ∈ staticFields →
        (dgetD existing k PyScalar.none).truthy = true →
        dget (mergeDetails existing new) k = dget existing k) ∧
    (∀ existing new k,
        (dgetD existing k PyScalar.none).truthy = true →
        dget (mergeVehicle existing new) k = dget existing k) ∧
    (∀ existing new k v, (new.map Prod.fst).Nodup → (k, v) ∈ new →
        k ∈ staticFields → v.truthy = true →
        (dgetD existing k PyScalar.none).truthy = false →
        dget (mergeDetails existing new) k = some v) ∧
    (∀ existing new k v, (new.map Prod.fst).Nodup → (k, v) ∈ new →
        v.truthy = true →
        (dgetD existing k PyScalar.none).truthy = false →
        dget (mergeVehicle existing new) k = some v) :=
  ⟨fun existing new k hk htr => foldl_details_writeonce new existing k hk htr,
   fun existing new k htr => foldl_vehicle_writeonce new existing k htr,
   fun existing new k v hnd hm _ hv hf => foldl_details_adopt new existing k v hnd hm hv hf,
   fun existing new k v hnd hm hv hf => foldl_vehicle_adopt new existing k v hnd hm hv hf⟩

/-- Witness for C1: `policy_number = "P1"` survives an incoming
`policy_number = "P2"`, a vehicle `make` survives an incoming `make`,
and an absent `customer_id` / vehicle `model` adopts the incoming
value. -/
theorem static_field_write_once_witness :
    (("policy_number" ∈ staticFields ∧
      (dgetD [("policy_number", PyScalar.str "P1")] "policy_number" PyScalar.none).truthy = true) ∧
     dget (mergeDetails [("policy_number", PyScalar.str "P1")]
        [("policy_number", PyScalar.str "P2")]) "policy_number"
       = dget [("policy_number", PyScalar.str "P1")] "policy_number") ∧
    dget (mergeVehicle [("make", PyScalar.str "Honda")]
        [("make", PyScalar.str "Toyota")]) "make"
      = dget [("make", PyScalar.str "Honda")] "make" ∧
    dget (mergeDetails [] [("customer_id", PyScalar.str "C1")]) "customer_id"
      = some (PyScalar.str "C1") ∧
    dget (mergeVehicle [] [("model", PyScalar.str "CR-V")]) "model"
      = some (PyScalar.str "CR-V") :=
  ⟨⟨⟨by decide, by decide⟩,
    static_field_write_once.1 _ _ _ (by decide) (by decide)⟩,
   static_field_write_once.2.1 _ _ _ (by decide),
   static_field_write_once.2.2.1 _ _ _ _ (by decide) (by decide) (by decide)
     (by decide) (by decide),
   static_field_write_once.2.2.2 _ _ _ _ (by decide) (by decide) (by decide)
     (by decide)⟩

/-! ## Store lemmas: the is_latest invariant -/

theorem eq_singleton_of_mem_of_length_le {α : Type} {l : List α} {a : α}
    (h : a ∈ l) (hl : l.length ≤ 1) : l = [a] := by
  match l with
  | [] => cases h
  | [b] => cases h with
    | head => rfl
    | tail _ h => cases h
  | b :: c :: t => simp at hl

theorem isLatestRow_demoted (it : Item) :
    isLatestRow { it with is_latest := "false" } = false := by
  simp [isLatestRow]

theorem filter_latest_demote (st : Store) (v : String) :
    (demote st v).filter isLatestRow
      = (st.filter isLatestRow).filter (keyNe v) := by
  induction st with
  | nil => rfl
  | cons it rest ih =>
    simp only [demote, List.map_cons] at *
    by_cases hv : it.version = v
    · rw [if_pos hv, List.filter_cons, List.filter_cons]
      by_cases hl : isLatestRow it
      · rw [if_pos hl, if_neg (by simp [isLatestRow_demoted]), List.filter_cons,
          if_neg (by simp [keyNe, hv]), ih]
      · rw [if_neg (by simp [isLatestRow_demoted]), if_neg hl, ih]
    · rw [if_neg hv, List.filter_cons, List.filter_cons]
      by_cases hl : isLatestRow it
      · rw [if_pos hl, if_pos hl, List.filter_cons, if_pos (by simp [keyNe, hv]), ih]
      · rw [if_neg hl, if_neg hl, ih]

theorem filter_latest_put (st : Store) (item : Item)
    (h : isLatestRow item = true) :
    (put st item).filter isLatestRow
      = ((st.filter (keyNe item.version)).filter isLatestRow) ++ [item] := by
  simp [put, List.filter_append, h]

theorem writeClaim_latest_filter (cid : PyVal) (ts : String) (data : UpdateData)
    (st : Store) (h : (st.filter isLatestRow).length ≤ 1) :
    (writeClaim cid ts data st).filter isLatestRow
      = [writtenItem cid ts data st] := by
  unfold writeClaim writtenItem
  cases hL : getLatest st with
  | none =>
    unfold getLatest at hL
    have hnil : st.filter isLatestRow = [] := by
      rw [List.filter_eq_nil_iff]
      exact List.find?_eq_none.mp hL
    show (put st (newItem cid ts data)).filter _ = _
    rw [filter_latest_put st _ (by simp [isLatestRow, newItem])]
    rw [List.filter_comm, hnil]
    rfl
  | some ex =>
    unfold getLatest at hL
    have hexl : isLatestRow ex = true := List.find?_some hL
    have hmem : ex ∈ st.filter isLatestRow :=
      List.mem_filter.mpr ⟨List.mem_of_find?_eq_some hL, hexl⟩
    have hex : st.filter isLatestRow = [ex] :=
      eq_singleton_of_mem_of_length_le hmem h
    show (put (demote st ex.version) (mergedItem cid ts ex data)).filter _ = _
    rw [filter_latest_put _ _ (by simp [isLatestRow, mergedItem])]
    rw [List.filter_comm, filter_latest_demote, hex]
    simp [keyNe]

theorem applyWrites_latest_le_one (cid : PyVal) (ops : List (String × UpdateData)) :
    ∀ st : Store, (st.filter isLatestRow).length ≤ 1 →
      ((ops.foldl (fun st op => writeClaim cid op.1 op.2 st) st).filter
        isLatestRow).length ≤ 1 := by
  induction ops with
  | nil => intro st h; exact h
  | cons op rest ih =>
    intro st h
    simp only [List.foldl_cons]
    apply ih
    rw [writeClaim_latest_filter cid op.1 op.2 st h]
    simp

/-- C2: after every write of a sequence of writes targeting the same
claim, exactly one stored version has `is_latest = "true"`, and it is
precisely the item the most recent write built (the write demotes the
prior latest before installing the new one). -/
theorem monotonic_latest (cid : PyVal) (ops : List (String × UpdateData))
    (ts : String) (data : UpdateData) :
    (applyWrites cid (ops ++ [(ts, data)])).filter isLatestRow
      = [writtenItem cid ts data (applyWrites cid ops)] := by
  unfold applyWrites
  rw [List.foldl_append]
  simp only [List.foldl_cons, List.foldl_nil]
  exact writeClaim_latest_filter cid ts data _
    (applyWrites_latest_le_one cid ops [] (by simp))

/-- C3 (code evaluation at the failing input): when the lookup of the
existing latest version fails with an ambiguous backend error, the
handler does NOT propagate the failure: it behaves exactly as if the
claim had no existing version, writes a duplicate new-claim record,
never demotes the true latest — leaving two `is_latest = "true"` rows —
and the merge (which would have preserved `policy_number`
AUTO-5678-9012) is skipped. -/
theorem lookup_error_treated_as_absent :
    writeClaimWithLookup (PyVal.scalar (PyScalar.str "CLM-1001"))
        "2025-05-20T09:00:00" exampleData
        (LookupOutcome.backendError "ProvisionedThroughputExceeded")
        [exampleExisting]
      = writeClaimWithLookup (PyVal.scalar (PyScalar.str "CLM-1001"))
          "2025-05-20T09:00:00" exampleData LookupOutcome.notFound
          [exampleExisting] ∧
    writeClaimWithLookup (PyVal.scalar (PyScalar.str "CLM-1001"))
        "2025-05-20T09:00:00" exampleData
        (LookupOutcome.backendError "ProvisionedThroughputExceeded")
        [exampleExisting]
      = put [exampleExisting]
          (newItem (PyVal.scalar (PyScalar.str "CLM-1001"))
            "2025-05-20T09:00:00" exampleData) ∧
    ((writeClaimWithLookup (PyVal.scalar (PyScalar.str "CLM-1001"))
        "2025-05-20T09:00:00" exampleData
        (LookupOutcome.backendError "ProvisionedThroughputExceeded")
        [exampleExisting]).filter isLatestRow).length = 2 ∧
    dget (newItem (PyVal.scalar (PyScalar.str "CLM-1001"))
        "2025-05-20T09:00:00" exampleData).claim_details "policy_number"
      = some (PyScalar.str "AUTO-9999-0000") :=
  ⟨rfl, rfl, by decide, by decide⟩

/-- C4: the merged uploaded-document list is the deduplicated union of
the existing and incoming lists (never shrinking, no duplicates), while
`required_documents` is wholesale-replaced by the incoming value,
defaulting to the empty list when absent; on the spec's example the
merged set is exactly the two-element set. -/
theorem document_union_no_duplicates :
    (∀ a b : List String, (mergeDocs a b).Nodup) ∧
    (∀ a b : List String, (mergeDocs a b).toFinset = a.toFinset ∪ b.toFinset) ∧
    (∀ (cid : PyVal) (ts : String) (ex : Item) (data : UpdateData),
        dget (mergedItem cid ts ex data).documents "required_documents"
          = some (dgetD data.documents "required_documents" (PyScalar.list []))) ∧
    (mergeDocs ["a.pdf"] ["a.pdf", "b.png"]).toFinset = {"a.pdf", "b.png"} ∧
    (mergeDocs ["a.pdf"] ["a.pdf", "b.png"]).length = 2 :=
  ⟨fun _ _ => List.nodup_dedup _,
   fun a b => by ext x; simp [mergeDocs],
   fun cid ts ex data => by simp [mergedItem, dget],
   by decide, by decide⟩

/-- C5: in a write against an existing version, `version_summary` is
wholesale-replaced by the incoming value, and the new version's
`status` is the merged summary's `claim_status`, defaulting to PENDING
when absent; an existing PENDING merged with an incoming APPROVED
yields status APPROVED. -/
theorem version_summary_overwrite :
    (∀ (cid : PyVal) (ts : String) (ex : Item) (data : UpdateData),
        (mergedItem cid ts ex data).version_summary = data.version_summary) ∧
    (∀ (cid : PyVal) (ts : String) (ex : Item) (data : UpdateData),
        (mergedItem cid ts ex data).status
          = dgetD data.version_summary "claim_status" (PyScalar.str "PENDING")) ∧
    (mergedItem (PyVal.scalar (PyScalar.str "CLM-1001")) "2025-05-20T09:00:00"
        exampleExisting exampleData).status = PyScalar.str "APPROVED" ∧
    (mergedItem (PyVal.scalar (PyScalar.str "CLM-1001")) "2025-05-20T09:00:00"
        exampleExisting
        { claim_id := some (PyVal.scalar (PyScalar.str "CLM-1001")),
          claim_details := [], vehicle_info := [], documents := [],
          version_summary := [] }).status = PyScalar.str "PENDING" :=
  ⟨fun _ _ _ _ => rfl, fun _ _ _ _ => rfl, by decide, by decide⟩

/-- C6: a write of a claim with no prior stored version stores the
incoming `claim_details`, `vehicle_info`, `documents` and
`version_summary` verbatim (empty defaults where absent, no merge
logic), with `status` derived from the incoming
`version_summary.claim_status`, defaulting to PENDING. -/
theorem new_claim_passthrough :
    (∀ (cid : PyVal) (ts : String) (data : UpdateData),
        (newItem cid ts data).claim_details = data.claim_details ∧
        (newItem cid ts data).vehicle_info = data.vehicle_info ∧
        (newItem cid ts data).documents = data.documents ∧
        (newItem cid ts data).version_summary = data.version_summary ∧
        (newItem cid ts data).status
          = dgetD data.version_summary "claim_status" (PyScalar.str "PENDING")) ∧
    (∀ (cid : PyVal) (ts : String) (data : UpdateData),
        writeGivenExisting cid ts data Option.none [] = [newItem cid ts data]) ∧
    (newItem (PyVal.scalar (PyScalar.str "CLM-2")) "2025-06-01T00:00:00"
        { claim_id := some (PyVal.scalar (PyScalar.str "CLM-2")),
          claim_details := [], vehicle_info := [], documents := [],
          version_summary := [] }).status = PyScalar.str "PENDING" :=
  ⟨fun _ _ _ => ⟨rfl, rfl, rfl, rfl, rfl⟩, fun _ _ _ => rfl, by decide⟩

/-! ## Numeric evaluation lemmas (C8) -/

theorem decimalNumberValue_example : decimalNumberValue "1234.56" = 30864 / 25 := by
  rw [decimalNumberValue]
  rw [show parseDecimal "1234.56" = some (123456, 2) from by decide]
  norm_num [decValue]

theorem log2_of_example : Int.log 2 |(123456 : ℚ) / 10 ^ 2| = 10 := by
  rw [abs_of_pos (by norm_num)]
  rw [Int.log_of_one_le_right _ (by norm_num)]
  rw [show ⌊(123456 : ℚ) / 10 ^ 2⌋₊ = 1234 from by
    rw [Nat.floor_eq_iff (by norm_num)]
    norm_num]
  rw [show Nat.log 2 1234 = 10 from
    Nat.log_eq_of_pow_le_of_lt_pow (by norm_num) (by norm_num)]
  rfl

theorem float64_example :
    float64OfRat ((123456 : ℚ) / 10 ^ 2) = 2714826150374277 / 2199023255552 := by
  rw [float64OfRat, if_neg (by norm_num), log2_of_example]
  rw [show ((52 : ℤ) - 10) = 42 from by norm_num,
    show ((10 : ℤ) - 52) = -42 from by norm_num]
  rw [scaleByPow2, if_neg (by norm_num)]
  rw [scaleByPow2, if_pos (by norm_num)]
  rw [show (-(-42 : ℤ)).toNat = 42 from rfl, show ((42 : ℤ)).toNat = 42 from rfl]
  rw [show round ((123456 : ℚ) / 10 ^ 2 * 2 ^ 42) = 5429652300748554 from by
    rw [round_eq, Int.floor_eq_iff]
    constructor <;> norm_num]
  norm_num

theorem floatNumberValue_example :
    floatNumberValue "1234.56" = 2714826150374277 / 2199023255552 := by
  rw [floatNumberValue]
  rw [show parseDecimal "1234.56" = some (123456, 2) from by decide]
  show float64OfRat (decValue (123456, 2)) = _
  rw [show decValue (123456, 2) = (123456 : ℚ) / 10 ^ 2 from by norm_num [decValue]]
  exact float64_example

/-- C7 counterexample: on the handled failure "absent claim_id", the
claims-management handler returns the 500 envelope WITHOUT echoing
`actionGroup` (or `apiPath`/`httpMethod`) and WITHOUT the session
attributes, contradicting the claim for this action-group handler. -/
theorem error_envelope_counterexample :
    (claimsActionsRun "2025-06-01T00:00:00" LookupOutcome.notFound []
        { actionGroup := "claims-management", apiPath := "/createClaim",
          httpMethod := "POST",
          sessionAttributes := [("k", PyScalar.str "v")],
          promptSessionAttributes := [], properties := [] }
        { claim_id := Option.none, claim_details := [], vehicle_info := [],
          documents := [], version_summary := [] }).1.response.httpStatusCode
      = 500 ∧
    (claimsActionsRun "2025-06-01T00:00:00" LookupOutcome.notFound []
        { actionGroup := "claims-management", apiPath := "/createClaim",
          httpMethod := "POST",
          sessionAttributes := [("k", PyScalar.str "v")],
          promptSessionAttributes := [], properties := [] }
        { claim_id := Option.none, claim_details := [], vehicle_info := [],
          documents := [], version_summary := [] }).1.response.actionGroup
      ≠ some "claims-management" ∧
    (claimsActionsRun "2025-06-01T00:00:00" LookupOutcome.notFound []
        { actionGroup := "claims-management", apiPath := "/createClaim",
          httpMethod := "POST",
          sessionAttributes := [("k", PyScalar.str "v")],
          promptSessionAttributes := [], properties := [] }
        { claim_id := Option.none, claim_details := [], vehicle_info := [],
          documents := [], version_summary := [] }).1.sessionAttributes
      ≠ some [("k", PyScalar.str "v")] :=
  ⟨rfl, by decide, by decide⟩

/-- C7 (amended): every handled failure returns — never throws — an
envelope with `httpStatusCode` 500 and the error message in the body;
the notification handler's error envelope echoes
`actionGroup`/`apiPath`/`httpMethod` and the session attributes
unchanged, while the claims-management handler's error envelope omits
all of them; on success both handlers return 200 with the echoed
fields. -/
theorem error_envelope_amended :
    (∀ msg : String,
        (claimsActionsError msg).response.httpStatusCode = 500 ∧
        (claimsActionsError msg).response.actionGroup = Option.none ∧
        (claimsActionsError msg).response.apiPath = Option.none ∧
        (claimsActionsError msg).response.httpMethod = Option.none ∧
        (claimsActionsError msg).sessionAttributes = Option.none ∧
        (claimsActionsError msg).response.body = ResponseBody.claimError msg) ∧
    (∀ (ts : String) (outcome : LookupOutcome) (st : Store) (ev : AgentEvent)
        (cd vi docs vs : Dict),
        (claimsActionsRun ts outcome st ev
          { claim_id := Option.none, claim_details := cd, vehicle_info := vi,
            documents := docs, version_summary := vs }).1
          = claimsActionsError "Missing required claim_id field") ∧
    (∀ (ts : String) (outcome : LookupOutcome) (st : Store) (ev : AgentEvent)
        (data : UpdateData) (cid : PyVal),
        data.claim_id = some cid → cid.truthy = true →
        ((claimsActionsRun ts outcome st ev data).1.response.httpStatusCode = 200 ∧
         (claimsActionsRun ts outcome st ev data).1.response.actionGroup
           = some ev.actionGroup ∧
         (claimsActionsRun ts outcome st ev data).1.response.apiPath
           = some ev.apiPath ∧
         (claimsActionsRun ts outcome st ev data).1.response.httpMethod
           = some ev.httpMethod ∧
         (claimsActionsRun ts outcome st ev data).1.sessionAttributes
           = some ev.sessionAttributes ∧
         (claimsActionsRun ts outcome st ev data).1.promptSessionAttributes
           = some ev.promptSessionAttributes)) ∧
    (∀ (pub : String → String → String → Except String String) (ev : AgentEvent),
        sendNotificationsRun Option.none pub ev
          = sendNotificationsError ev "Missing TOPIC_ARN environment variable") ∧
    (∀ (arn e : String) (ev : AgentEvent),
        sendNotificationsRun (some arn) (fun _ _ _ => Except.error e) ev
          = sendNotificationsError ev e) ∧
    (∀ (ev : AgentEvent) (cause : String),
        (sendNotificationsError ev cause).response.httpStatusCode = 500 ∧
        (sendNotificationsError ev cause).response.actionGroup
          = some ev.actionGroup ∧
        (sendNotificationsError ev cause).response.apiPath = some ev.apiPath ∧
        (sendNotificationsError ev cause).response.httpMethod
          = some ev.httpMethod ∧
        (sendNotificationsError ev cause).sessionAttributes
          = some ev.sessionAttributes ∧
        (sendNotificationsError ev cause).promptSessionAttributes
          = some ev.promptSessionAttributes ∧
        (sendNotificationsError ev cause).response.body
          = ResponseBody.notifyError ("Error sending notification: " ++ cause)) ∧
    (∀ (arn mid : String) (ev : AgentEvent),
        (sendNotificationsRun (some arn) (fun _ _ _ => Except.ok mid) ev).response.httpStatusCode
          = 200 ∧
        (sendNotificationsRun (some arn) (fun _ _ _ => Except.ok mid) ev).response.actionGroup
          = some ev.actionGroup ∧
        (sendNotificationsRun (some arn) (fun _ _ _ => Except.ok mid) ev).sessionAttributes
          = some ev.sessionAttributes) :=
  ⟨fun _ => ⟨rfl, rfl, rfl, rfl, rfl, rfl⟩,
   fun _ _ _ _ _ _ _ _ => rfl,
   by
    intro ts outcome st ev data cid h ht
    cases data with
    | mk c cd vi docs vs =>
      have hc : c = some cid := h
      subst hc
      simp [claimsActionsRun, ht],
   fun _ _ => rfl,
   fun _ _ _ => rfl,
   fun _ _ => ⟨rfl, rfl, rfl, rfl, rfl, rfl, rfl⟩,
   fun _ _ _ => ⟨rfl, rfl, rfl⟩⟩

/-- Witness for C7 (amended): a concrete successful write returns 200
echoing the input's `actionGroup`. -/
theorem error_envelope_amended_witness :
    ({ claim_id := some (PyVal.scalar (PyScalar.str "CLM-1001")),
       claim_details := [], vehicle_info := [], documents := [],
       version_summary := [] } : UpdateData).claim_id
      = some (PyVal.scalar (PyScalar.str "CLM-1001")) ∧
    (PyVal.scalar (PyScalar.str "CLM-1001")).truthy = true ∧
    ((claimsActionsRun "2025-06-01T00:00:00" LookupOutcome.notFound []
        { actionGroup := "claims-management", apiPath := "/createClaim",
          httpMethod := "POST", sessionAttributes := [],
          promptSessionAttributes := [], properties := [] }
        { claim_id := some (PyVal.scalar (PyScalar.str "CLM-1001")),
          claim_details := [], vehicle_info := [], documents := [],
          version_summary := [] }).1.response.httpStatusCode = 200 ∧
     (claimsActionsRun "2025-06-01T00:00:00" LookupOutcome.notFound []
        { actionGroup := "claims-management", apiPath := "/createClaim",
          httpMethod := "POST", sessionAttributes := [],
          promptSessionAttributes := [], properties := [] }
        { claim_id := some (PyVal.scalar (PyScalar.str "CLM-1001")),
          claim_details := [], vehicle_info := [], documents := [],
          version_summary := [] }).1.response.actionGroup
       = some "claims-management") :=
  ⟨rfl, by decide,
   ⟨(error_envelope_amended.2.2.1 "2025-06-01T00:00:00" LookupOutcome.notFound []
       { actionGroup := "claims-management", apiPath := "/createClaim",
         httpMethod := "POST", sessionAttributes := [],
         promptSessionAttributes := [], properties := [] }
       { claim_id := some (PyVal.scalar (PyScalar.str "CLM-1001")),
         claim_details := [], vehicle_info := [], documents := [],
         version_summary := [] }
       (PyVal.scalar (PyScalar.str "CLM-1001")) rfl (by decide)).1,
    (error_envelope_amended.2.2.1 "2025-06-01T00:00:00" LookupOutcome.notFound []
       { actionGroup := "claims-management", apiPath := "/createClaim",
         httpMethod := "POST", sessionAttributes := [],
         promptSessionAttributes := [], properties := [] }
       { claim_id := some (PyVal.scalar (PyScalar.str "CLM-1001")),
         claim_details := [], vehicle_info := [], documents := [],
         version_summary := [] }
       (PyVal.scalar (PyScalar.str "CLM-1001")) rfl (by decide)).2.1⟩⟩

/-- C8 counterexample: the image-analysis adapter coerces a `number`
property with `float(value)`, so "1234.56" does NOT become the exact
decimal 1234.56 (= 30864/25) but its binary64 rounding. -/
theorem number_coercion_counterexample :
    imageAnalysisCoerce (fun _ => Option.none) "number" "1234.56"
      ≠ PyVal.scalar (PyScalar.num (30864 / 25)) := by
  intro hEq
  rw [show imageAnalysisCoerce (fun _ => Option.none) "number" "1234.56"
      = PyVal.scalar (PyScalar.num (floatNumberValue "1234.56")) from rfl,
    floatNumberValue_example] at hEq
  simp only [PyVal.scalar.injEq, PyScalar.num.injEq] at hEq
  norm_num at hEq

/-- C8 (amended): the claims-management and claim-retrieval adapters
coerce `number` properties with `Decimal(str(value))`, keeping the
parsed decimal exactly (so "1234.56" becomes exactly 30864/25), with a
parse failure yielding zero; the image-analysis adapter coerces with
`float(value)` — binary64, hence 2714826150374277/2199023255552 for
"1234.56" — likewise yielding zero on parse failure. -/
theorem number_coercion_amended :
    (∀ (s : String) (p : ℤ × ℕ), parseDecimal s = some p →
        decimalNumberValue s = decValue p) ∧
    decimalNumberValue "1234.56" = 30864 / 25 ∧
    decimalNumberValue "not-a-number" = 0 ∧
    floatNumberValue "not-a-number" = 0 ∧
    claimsActionsCoerce (fun _ => Option.none) (fun _ => []) "number" "1234.56"
      = PyVal.scalar (PyScalar.num (30864 / 25)) ∧
    getClaimCoerce (fun _ => Option.none) "number" "1234.56"
      = PyVal.scalar (PyScalar.num (30864 / 25)) ∧
    imageAnalysisCoerce (fun _ => Option.none) "number" "1234.56"
      = PyVal.scalar (PyScalar.num (2714826150374277 / 2199023255552)) :=
  ⟨fun s p h => by rw [decimalNumberValue, h],
   decimalNumberValue_example,
   by rw [decimalNumberValue,
     show parseDecimal "not-a-number" = Option.none from by decide],
   by rw [floatNumberValue,
     show parseDecimal "not-a-number" = Option.none from by decide],
   by rw [show claimsActionsCoerce (fun _ => Option.none) (fun _ => []) "number" "1234.56"
       = PyVal.scalar (PyScalar.num (decimalNumberValue "1234.56")) from rfl,
     decimalNumberValue_example],
   by rw [show getClaimCoerce (fun _ => Option.none) "number" "1234.56"
       = PyVal.scalar (PyScalar.num (decimalNumberValue "1234.56")) from rfl,
     decimalNumberValue_example],
   by rw [show imageAnalysisCoerce (fun _ => Option.none) "number" "1234.56"
       = PyVal.scalar (PyScalar.num (floatNumberValue "1234.56")) from rfl,
     floatNumberValue_example]⟩

/-- Witness for C8 (amended): the exactness conjunct at "99.5". -/
theorem number_coercion_amended_witness :
    parseDecimal "99.5" = some (995, 1) ∧
    decimalNumberValue "99.5" = decValue (995, 1) :=
  ⟨by decide, number_coercion_amended.1 "99.5" (995, 1) (by decide)⟩

/-- C9 counterexample: the claims-management extractor has no boolean
branch, so a property declared `boolean` with value "true" is kept as
the raw string "true", not coerced to the boolean true. -/
theorem boolean_coercion_counterexample :
    claimsActionsCoerce (fun _ => Option.none) (fun _ => []) "boolean" "true"
      = PyVal.scalar (PyScalar.str "true") ∧
    claimsActionsCoerce (fun _ => Option.none) (fun _ => []) "boolean" "true"
      ≠ PyVal.scalar (PyScalar.bool true) :=
  ⟨by decide, by decide⟩

/-- C9 (amended): only the image-analysis extractor coerces `boolean`
properties, true exactly when the value matches "true"
case-insensitively; the claims-management and claim-retrieval
extractors have no boolean branch and pass the raw string through, and
the notification extractor applies no type coercion at all. -/
theorem boolean_coercion_amended :
    (∀ (jsonP : String → Option PyVal) (v : String),
        imageAnalysisCoerce jsonP "boolean" v
          = PyVal.scalar (PyScalar.bool (pyLower v == "true"))) ∧
    imageAnalysisCoerce (fun _ => Option.none) "boolean" "True"
      = PyVal.scalar (PyScalar.bool true) ∧
    imageAnalysisCoerce (fun _ => Option.none) "boolean" "TRUE"
      = PyVal.scalar (PyScalar.bool true) ∧
    imageAnalysisCoerce (fun _ => Option.none) "boolean" "false"
      = PyVal.scalar (PyScalar.bool false) ∧
    imageAnalysisCoerce (fun _ => Option.none) "boolean" "yes"
      = PyVal.scalar (PyScalar.bool false) ∧
    (∀ (jsonP : String → Option PyVal) (agentP : String → Dict) (v : String),
        claimsActionsCoerce jsonP agentP "boolean" v
          = PyVal.scalar (PyScalar.str v)) ∧
    (∀ (jsonP : String → Option PyVal) (v : String),
        getClaimCoerce jsonP "boolean" v = PyVal.scalar (PyScalar.str v)) ∧
    (∀ (n v : String),
        sendNotificationsExtract [{ name := n, typ := "boolean", value := v }]
          = [(n, PyScalar.str v)]) :=
  ⟨fun _ _ => rfl, by decide, by decide, by decide, by decide,
   fun _ _ _ => rfl, fun _ _ => rfl, fun _ _ => rfl⟩

/-- C10: "empty" in the merge engine is Python-falsy: a static
`claim_details` field or `vehicle_info` field whose existing value is
falsy (`False`, `0`, `""`, `[]`) is overwritten by a truthy incoming
value, and a falsy incoming value is ignored for every field, dynamic
ones included — an incoming empty string never clears an existing
value. -/
theorem falsy_merge_semantics :
    (∀ (existing new : Dict) (k : String) (v w : PyScalar),
        (new.map Prod.fst).Nodup → (k, v) ∈ new → v.truthy = true →
        dget existing k = some w → w.truthy = false →
        dget (mergeDetails existing new) k = some v) ∧
    (∀ (existing new : Dict) (k : String),
        (∀ v, (k, v) ∈ new → v.truthy = false) →
        dget (mergeDetails existing new) k = dget existing k) ∧
    (∀ (existing new : Dict) (k : String) (v w : PyScalar),
        (new.map Prod.fst).Nodup → (k, v) ∈ new → v.truthy = true →
        dget existing k = some w → w.truthy = false →
        dget (mergeVehicle existing new) k = some v) ∧
    (∀ (existing new : Dict) (k : String),
        (∀ v, (k, v) ∈ new → v.truthy = false) →
        dget (mergeVehicle existing new) k = dget existing k) ∧
    dget (mergeDetails [("active_policy", PyScalar.bool false)]
        [("active_policy", PyScalar.bool true)]) "active_policy"
      = some (PyScalar.bool true) ∧
    dget (mergeDetails [("coverage_amount", PyScalar.num 0)]
        [("coverage_amount", PyScalar.num 50000)]) "coverage_amount"
      = some (PyScalar.num 50000) ∧
    dget (mergeDetails [("damage_description", PyScalar.str "dent")]
        [("damage_description", PyScalar.str "")]) "damage_description"
      = some (PyScalar.str "dent") :=
  ⟨fun existing new k v w hnd hm hv hw hwf =>
    foldl_details_adopt new existing k v hnd hm hv (by rw [dgetD, hw]; exact hwf),
   fun existing new k h => foldl_details_skip new existing k h,
   fun existing new k v w hnd hm hv hw hwf =>
    foldl_vehicle_adopt new existing k v hnd hm hv (by rw [dgetD, hw]; exact hwf),
   fun existing new k h => foldl_vehicle_skip new existing k h,
   by decide, by decide, by decide⟩

/-- Witness for C10: the concrete `active_policy` overwrite obtained by
applying the theorem itself. -/
theorem falsy_merge_semantics_witness :
    ((([("active_policy", PyScalar.bool true)] : Dict).map Prod.fst).Nodup ∧
     ("active_policy", PyScalar.bool true)
       ∈ ([("active_policy", PyScalar.bool true)] : Dict) ∧
     (PyScalar.bool true).truthy = true ∧
     dget [("active_policy", PyScalar.bool false)] "active_policy"
       = some (PyScalar.bool false) ∧
     (PyScalar.bool false).truthy = false) ∧
    dget (mergeDetails [("active_policy", PyScalar.bool false)]
        [("active_policy", PyScalar.bool true)]) "active_policy"
      = some (PyScalar.bool true) :=
  ⟨⟨by decide, by decide, by decide, by decide, by decide⟩,
   falsy_merge_semantics.1 [("active_policy", PyScalar.bool false)]
     [("active_policy", PyScalar.bool true)] "active_policy"
     (PyScalar.bool true) (PyScalar.bool false)
     (by decide) (by decide) (by decide) (by decide) (by decide)⟩
